import Mathlib

/-!
Verification of the proxy-manager engine: a shallow embedding of the
repository's core components (geo mapper, IP detector, proxy checker
statistics, proxy-manager cache, circuit breaker) together with theorems
settling the behavioural claims about them.

Conventions of the embedding:
* Python strings are Lean `String`; `str.upper()` is modelled for the ASCII
  range (the embedded data contains only ASCII letters and CJK characters,
  which Python's `upper` leaves unchanged).
* Python dicts are insertion-ordered association lists with overwrite-keeps-
  position update semantics, as in CPython.
* `time.time()` is an explicit `Nat` argument threaded through the functions
  that read the clock.
* Randomness (`random.choice`) is an explicit choice index argument; theorems
  quantify over it.
-/

namespace PMS

/-- Whitespace test used by Python `str.strip()` (ASCII whitespace; the
inputs relevant here contain no exotic Unicode spaces). -/
def pyIsSpace (c : Char) : Bool :=
  c = ' ' || c = '\t' || c = '\n' || c = '\r' || c = '\x0b' || c = '\x0c'

/-- Python `str.strip()`: drop leading and trailing whitespace. -/
def pyStrip (s : String) : String :=
  ⟨((s.data.dropWhile pyIsSpace).reverse.dropWhile pyIsSpace).reverse⟩

/-- Uppercase one character, ASCII range only (CJK characters are unchanged
by Python `str.upper()` as well). -/
def pyUpperChar (c : Char) : Char :=
  if 'a' ≤ c && c ≤ 'z' then Char.ofNat (c.toNat - 32) else c

/-- Python `str.upper()` on the data handled by this program. -/
def pyUpper (s : String) : String :=
  ⟨s.data.map pyUpperChar⟩

/-! ### Python dict model

Insertion-ordered association lists.  `dinsert` models `d[k] = v` /
`dict.update` (overwrite keeps the original position), `dinsertIfAbsent`
models the `if k not in d: d[k] = v` idiom, `dlookup` models `d.get(k)`.  -/

/-- Lookup in an insertion-ordered dict (first binding of the key). -/
def dlookup (m : List (String × String)) (k : String) : Option String :=
  match m with
  | [] => none
  | (k2, v) :: rest => if k2 = k then some v else dlookup rest k

/-- Membership in a dict, `k in d`. -/
def dcontains (m : List (String × String)) (k : String) : Bool :=
  (dlookup m k).isSome

/-- Assignment `d[k] = v`: overwrite in place if present, else append. -/
def dinsert (m : List (String × String)) (k v : String) : List (String × String) :=
  match m with
  | [] => [(k, v)]
  | (k2, v2) :: rest =>
      if k2 = k then (k2, v) :: rest else (k2, v2) :: dinsert rest k v

/-- Conditional insertion `if k not in d: d[k] = v`. -/
def dinsertIfAbsent (m : List (String × String)) (k v : String) : List (String × String) :=
  if dcontains m k then m else m ++ [(k, v)]

/-! ### Geo data (src/core/geo/data.py) -/

/-- CODE_TO_CHINESE_NAME from data.py. -/
def CODE_TO_CHINESE_NAME : List (String × String) :=
  [("CN", "中国"), ("HK", "香港"), ("TW", "台湾"), ("MO", "澳门"),
   ("JP", "日本"), ("KR", "韩国"), ("SG", "新加坡"), ("IN", "印度"),
   ("TH", "泰国"), ("MY", "马来西亚"), ("ID", "印度尼西亚"), ("PH", "菲律宾"),
   ("VN", "越南"),
   ("GB", "英国"), ("DE", "德国"), ("FR", "法国"), ("IT", "意大利"),
   ("ES", "西班牙"), ("CH", "瑞士"), ("NL", "荷兰"), ("SE", "瑞典"),
   ("NO", "挪威"), ("DK", "丹麦"), ("FI", "芬兰"), ("PL", "波兰"),
   ("PT", "葡萄牙"), ("GR", "希腊"), ("RU", "俄罗斯"),
   ("US", "美国"), ("CA", "加拿大"), ("MX", "墨西哥"),
   ("BR", "巴西"), ("AR", "阿根廷"), ("CL", "智利"),
   ("AU", "澳大利亚"), ("NZ", "新西兰"),
   ("ZA", "南非"), ("EG", "埃及"),
   ("TR", "土耳其"), ("AE", "阿联酋"), ("SA", "沙特阿拉伯"), ("IL", "以色列")]

/-- CODE_TO_ENGLISH_NAME from data.py. -/
def CODE_TO_ENGLISH_NAME : List (String × String) :=
  [("CN", "China"), ("HK", "Hong Kong"), ("TW", "Taiwan"), ("MO", "Macau"),
   ("JP", "Japan"), ("KR", "South Korea"), ("SG", "Singapore"), ("IN", "India"),
   ("TH", "Thailand"), ("MY", "Malaysia"), ("ID", "Indonesia"), ("PH", "Philippines"),
   ("VN", "Vietnam"),
   ("GB", "United Kingdom"), ("DE", "Germany"), ("FR", "France"), ("IT", "Italy"),
   ("ES", "Spain"), ("CH", "Switzerland"), ("NL", "Netherlands"), ("SE", "Sweden"),
   ("NO", "Norway"), ("DK", "Denmark"), ("FI", "Finland"), ("PL", "Poland"),
   ("PT", "Portugal"), ("GR", "Greece"), ("RU", "Russia"),
   ("US", "United States"), ("CA", "Canada"), ("MX", "Mexico"),
   ("BR", "Brazil"), ("AR", "Argentina"), ("CL", "Chile"),
   ("AU", "Australia"), ("NZ", "New Zealand"),
   ("ZA", "South Africa"), ("EG", "Egypt"),
   ("TR", "Turkey"), ("AE", "United Arab Emirates"), ("SA", "Saudi Arabia"),
   ("IL", "Israel")]

/-- COUNTRY_CODE_ALIASES from data.py. -/
def COUNTRY_CODE_ALIASES : List (String × List String) :=
  [("CN", ["CHINA", "MAINLAND", "ZHONGGUO", "中国大陆", "中国内地", "中华人民共和国", "中华", "大陆"]),
   ("US", ["USA", "AMERICA", "UNITED STATES", "美国", "美利坚", "美利坚合众国"]),
   ("GB", ["UK", "UNITED KINGDOM", "ENGLAND", "英国", "英格兰", "大不列颠", "英"]),
   ("HK", ["HONG KONG", "HONGKONG", "香港", "香港特别行政区", "港"]),
   ("TW", ["TAIWAN", "台湾", "中国台湾", "台湾省", "台"]),
   ("MO", ["MACAO", "MACAU", "澳门", "澳门特别行政区", "澳"]),
   ("JP", ["JAPAN", "日本", "日"]),
   ("KR", ["SOUTH KOREA", "KOREA", "韩国", "南韩", "大韩民国"]),
   ("SG", ["SINGAPORE", "新加坡", "新"]),
   ("IN", ["INDIA", "印度"]),
   ("RU", ["RUSSIA", "俄罗斯", "俄", "俄罗斯联邦"]),
   ("DE", ["GERMANY", "德国", "德意志"]),
   ("FR", ["FRANCE", "法国", "法兰西"]),
   ("CA", ["CANADA", "加拿大", "加"]),
   ("AU", ["AUSTRALIA", "澳大利亚", "澳洲"])]

/-! ### CountryMapper (src/core/geo/mapper.py) -/

/-- Step 6 of `_init_country_mapping`: the uppercase-folded variants of the
existing keys, first occurrence winning, keys already present skipped.
(Every key in the table is a string, so the `isinstance` guard always
passes.) -/
def buildUpperMapping (m : List (String × String)) : List (String × String) :=
  m.foldl
    (fun acc kv =>
      let uk := pyUpper kv.1
      if dcontains m uk || dcontains acc uk then acc else acc ++ [(uk, kv.2)])
    []

/-- CountryMapper._init_country_mapping: build the single bidirectional
lookup table from the data module, in the source's insertion order. -/
def initCountryMapping : List (String × String) :=
  -- 1. code -> Chinese name, 2. code -> English name (overwrites step 1)
  let m := CODE_TO_ENGLISH_NAME.foldl (fun acc kv => dinsert acc kv.1 kv.2)
    (CODE_TO_CHINESE_NAME.foldl (fun acc kv => dinsert acc kv.1 kv.2) [])
  -- 3. Chinese name -> code (only if absent)
  let m := CODE_TO_CHINESE_NAME.foldl (fun acc kv => dinsertIfAbsent acc kv.2 kv.1) m
  -- 4. English name -> code (only if absent)
  let m := CODE_TO_ENGLISH_NAME.foldl (fun acc kv => dinsertIfAbsent acc kv.2 kv.1) m
  -- 5. aliases (only if absent)
  let m := COUNTRY_CODE_ALIASES.foldl
    (fun acc ca => ca.2.foldl (fun acc2 al => dinsertIfAbsent acc2 al ca.1) acc) m
  -- 6. uppercase variants
  buildUpperMapping m |>.foldl (fun acc kv => dinsert acc kv.1 kv.2) m

/-- The mapper's `_mapping_cache` / `country_mapping`. -/
def countryMapping : List (String × String) := initCountryMapping

/-- CountryMapper.get_country_code: resolve a country/region name to a value
of the lookup table (direct lookup, then uppercase lookup, then the special
prefix rule for names starting with 中国).  The method reads the mapper's
`self._mapping_cache` field, which is the explicit argument `tbl` here. -/
def getCountryCodeT (tbl : List (String × String)) (country_name : String) : Option String :=
  if country_name = "" then none
  else
    let n := pyStrip country_name
    match dlookup tbl n with
    | some v => some v
    | none =>
        match dlookup tbl (pyUpper n) with
        | some v => some v
        | none => if n.startsWith "中国" then some "CN" else none

/-- CountryMapper.get_country_code of the mapper instance, whose
`_mapping_cache` field holds `countryMapping`. -/
def get_country_code : String → Option String := getCountryCodeT countryMapping

/-- CountryMapper.get_country_name: code to Chinese name. -/
def get_country_name (country_code : String) : Option String :=
  if country_code = "" then none
  else dlookup CODE_TO_CHINESE_NAME (pyUpper (pyStrip country_code))

/-- CountryMapper.get_country_english_name: code to English name. -/
def get_country_english_name (country_code : String) : Option String :=
  if country_code = "" then none
  else dlookup CODE_TO_ENGLISH_NAME (pyUpper (pyStrip country_code))

/-- Truthiness of `get_country_code`'s result followed by `.upper()`, as used
in `match_country_code` step 2: a `None` or empty mapping result leaves the
code unchanged. -/
def mapStepT (tbl : List (String × String)) (code : String) : String :=
  match getCountryCodeT tbl code with
  | some m => if m = "" then code else pyUpper m
  | none => code

/-- CountryMapper.match_country_code over the `self._mapping_cache` argument
`tbl`: direct comparison, then comparison after mapping both sides through
the table, then the mainland/HK-MO-TW special cases, else no match. -/
def matchCountryCodeT (tbl : List (String × String)) (detected_code target_code : String) : Bool :=
  if detected_code = "" || target_code = "" then false
  else
    let d := pyUpper (pyStrip detected_code)
    let t := pyUpper (pyStrip target_code)
    if d = t then true
    else
      let d2 := mapStepT tbl d
      let t2 := mapStepT tbl t
      if d2 = t2 then true
      else if t2 = "CN" && (d2 = "HK" || d2 = "TW" || d2 = "MO") then false
      else if (t2 = "HK" || t2 = "TW" || t2 = "MO") && d2 = "CN" then false
      else false

/-- CountryMapper.match_country_code of the mapper instance. -/
def match_country_code : String → String → Bool := matchCountryCodeT countryMapping

end PMS

namespace PMS

set_option maxRecDepth 8000

/-- Explicit value of the constructed lookup table, established once by
evaluation in countryMapping_eval and reused by the concrete theorems. -/
def countryMappingTable : List (String × String) :=
  [("CN", "China"),
   ("HK", "Hong Kong"),
   ("TW", "Taiwan"),
   ("MO", "Macau"),
   ("JP", "Japan"),
   ("KR", "South Korea"),
   ("SG", "Singapore"),
   ("IN", "India"),
   ("TH", "Thailand"),
   ("MY", "Malaysia"),
   ("ID", "Indonesia"),
   ("PH", "Philippines"),
   ("VN", "Vietnam"),
   ("GB", "United Kingdom"),
   ("DE", "Germany"),
   ("FR", "France"),
   ("IT", "Italy"),
   ("ES", "Spain"),
   ("CH", "Switzerland"),
   ("NL", "Netherlands"),
   ("SE", "Sweden"),
   ("NO", "Norway"),
   ("DK", "Denmark"),
   ("FI", "Finland"),
   ("PL", "Poland"),
   ("PT", "Portugal"),
   ("GR", "Greece"),
   ("RU", "Russia"),
   ("US", "United States"),
   ("CA", "Canada"),
   ("MX", "Mexico"),
   ("BR", "Brazil"),
   ("AR", "Argentina"),
   ("CL", "Chile"),
   ("AU", "Australia"),
   ("NZ", "New Zealand"),
   ("ZA", "South Africa"),
   ("EG", "Egypt"),
   ("TR", "Turkey"),
   ("AE", "United Arab Emirates"),
   ("SA", "Saudi Arabia"),
   ("IL", "Israel"),
   ("中国", "CN"),
   ("香港", "HK"),
   ("台湾", "TW"),
   ("澳门", "MO"),
   ("日本", "JP"),
   ("韩国", "KR"),
   ("新加坡", "SG"),
   ("印度", "IN"),
   ("泰国", "TH"),
   ("马来西亚", "MY"),
   ("印度尼西亚", "ID"),
   ("菲律宾", "PH"),
   ("越南", "VN"),
   ("英国", "GB"),
   ("德国", "DE"),
   ("法国", "FR"),
   ("意大利", "IT"),
   ("西班牙", "ES"),
   ("瑞士", "CH"),
   ("荷兰", "NL"),
   ("瑞典", "SE"),
   ("挪威", "NO"),
   ("丹麦", "DK"),
   ("芬兰", "FI"),
   ("波兰", "PL"),
   ("葡萄牙", "PT"),
   ("希腊", "GR"),
   ("俄罗斯", "RU"),
   ("美国", "US"),
   ("加拿大", "CA"),
   ("墨西哥", "MX"),
   ("巴西", "BR"),
   ("阿根廷", "AR"),
   ("智利", "CL"),
   ("澳大利亚", "AU"),
   ("新西兰", "NZ"),
   ("南非", "ZA"),
   ("埃及", "EG"),
   ("土耳其", "TR"),
   ("阿联酋", "AE"),
   ("沙特阿拉伯", "SA"),
   ("以色列", "IL"),
   ("China", "CN"),
   ("Hong Kong", "HK"),
   ("Taiwan", "TW"),
   ("Macau", "MO"),
   ("Japan", "JP"),
   ("South Korea", "KR"),
   ("Singapore", "SG"),
   ("India", "IN"),
   ("Thailand", "TH"),
   ("Malaysia", "MY"),
   ("Indonesia", "ID"),
   ("Philippines", "PH"),
   ("Vietnam", "VN"),
   ("United Kingdom", "GB"),
   ("Germany", "DE"),
   ("France", "FR"),
   ("Italy", "IT"),
   ("Spain", "ES"),
   ("Switzerland", "CH"),
   ("Netherlands", "NL"),
   ("Sweden", "SE"),
   ("Norway", "NO"),
   ("Denmark", "DK"),
   ("Finland", "FI"),
   ("Poland", "PL"),
   ("Portugal", "PT"),
   ("Greece", "GR"),
   ("Russia", "RU"),
   ("United States", "US"),
   ("Canada", "CA"),
   ("Mexico", "MX"),
   ("Brazil", "BR"),
   ("Argentina", "AR"),
   ("Chile", "CL"),
   ("Australia", "AU"),
   ("New Zealand", "NZ"),
   ("South Africa", "ZA"),
   ("Egypt", "EG"),
   ("Turkey", "TR"),
   ("United Arab Emirates", "AE"),
   ("Saudi Arabia", "SA"),
   ("Israel", "IL"),
   ("CHINA", "CN"),
   ("MAINLAND", "CN"),
   ("ZHONGGUO", "CN"),
   ("中国大陆", "CN"),
   ("中国内地", "CN"),
   ("中华人民共和国", "CN"),
   ("中华", "CN"),
   ("大陆", "CN"),
   ("USA", "US"),
   ("AMERICA", "US"),
   ("UNITED STATES", "US"),
   ("美利坚", "US"),
   ("美利坚合众国", "US"),
   ("UK", "GB"),
   ("UNITED KINGDOM", "GB"),
   ("ENGLAND", "GB"),
   ("英格兰", "GB"),
   ("大不列颠", "GB"),
   ("英", "GB"),
   ("HONG KONG", "HK"),
   ("HONGKONG", "HK"),
   ("香港特别行政区", "HK"),
   ("港", "HK"),
   ("TAIWAN", "TW"),
   ("中国台湾", "TW"),
   ("台湾省", "TW"),
   ("台", "TW"),
   ("MACAO", "MO"),
   ("MACAU", "MO"),
   ("澳门特别行政区", "MO"),
   ("澳", "MO"),
   ("JAPAN", "JP"),
   ("日", "JP"),
   ("SOUTH KOREA", "KR"),
   ("KOREA", "KR"),
   ("南韩", "KR"),
   ("大韩民国", "KR"),
   ("SINGAPORE", "SG"),
   ("新", "SG"),
   ("INDIA", "IN"),
   ("RUSSIA", "RU"),
   ("俄", "RU"),
   ("俄罗斯联邦", "RU"),
   ("GERMANY", "DE"),
   ("德意志", "DE"),
   ("FRANCE", "FR"),
   ("法兰西", "FR"),
   ("CANADA", "CA"),
   ("加", "CA"),
   ("AUSTRALIA", "AU"),
   ("澳洲", "AU"),
   ("THAILAND", "TH"),
   ("MALAYSIA", "MY"),
   ("INDONESIA", "ID"),
   ("PHILIPPINES", "PH"),
   ("VIETNAM", "VN"),
   ("ITALY", "IT"),
   ("SPAIN", "ES"),
   ("SWITZERLAND", "CH"),
   ("NETHERLANDS", "NL"),
   ("SWEDEN", "SE"),
   ("NORWAY", "NO"),
   ("DENMARK", "DK"),
   ("FINLAND", "FI"),
   ("POLAND", "PL"),
   ("PORTUGAL", "PT"),
   ("GREECE", "GR"),
   ("MEXICO", "MX"),
   ("BRAZIL", "BR"),
   ("ARGENTINA", "AR"),
   ("CHILE", "CL"),
   ("NEW ZEALAND", "NZ"),
   ("SOUTH AFRICA", "ZA"),
   ("EGYPT", "EG"),
   ("TURKEY", "TR"),
   ("UNITED ARAB EMIRATES", "AE"),
   ("SAUDI ARABIA", "SA"),
   ("ISRAEL", "IL")]

/-- Evaluation of the table construction of `_init_country_mapping`. -/
theorem countryMapping_eval : countryMapping = countryMappingTable := by decide

end PMS

namespace PMS

/-- C1: each of the six ordered pairs drawn from mainland China (CN) with
Hong Kong (HK), Taiwan (TW) and Macau (MO) is rejected by
CountryMapper.match_country_code. -/
theorem c1_cn_hk_tw_mo_never_match :
    match_country_code "CN" "HK" = false ∧ match_country_code "HK" "CN" = false ∧
    match_country_code "CN" "TW" = false ∧ match_country_code "TW" "CN" = false ∧
    match_country_code "CN" "MO" = false ∧ match_country_code "MO" "CN" = false := by
  unfold match_country_code
  rw [countryMapping_eval]
  decide

/-- C2: the code evaluated at the claim's own example pair.  The localized
name 中国 resolves through the table to the code "CN", but the bare code
"CN" resolves to the English name "China" (the table is bidirectional and
step 2 of `_init_country_mapping` overwrites code keys with English names),
so the two sides normalize to the distinct strings "CN" and "CHINA" and
CountryMapper.match_country_code returns false, against the claimed rule
that normalizing both sides to codes makes such a pair match. -/
theorem c2_name_code_pair_rejected :
    get_country_code "中国" = some "CN" ∧
    get_country_code "CN" = some "China" ∧
    match_country_code "中国" "CN" = false := by
  unfold get_country_code match_country_code
  rw [countryMapping_eval]
  decide

end PMS

namespace PMS

/-! ### Generic Python-dict helpers for non-string values -/

/-- Lookup in an insertion-ordered dict with values of any type. -/
def alookup {α : Type} : List (String × α) → String → Option α
  | [], _ => none
  | (k2, v) :: rest, k => if k2 = k then some v else alookup rest k

/-- Membership test, `k in d`. -/
def acontains {α : Type} (m : List (String × α)) (k : String) : Bool :=
  (alookup m k).isSome

/-- Assignment `d[k] = v`: overwrite in place if present, else append. -/
def aset {α : Type} : List (String × α) → String → α → List (String × α)
  | [], k, v => [(k, v)]
  | (k2, v2) :: rest, k, v =>
      if k2 = k then (k2, v) :: rest else (k2, v2) :: aset rest k v

/-! ### JSON values (probe response bodies)

The probe APIs answer JSON; the detector walks dot-paths through nested
dicts.  Mutually inductive to keep recursion structural. -/

mutual

inductive Json where
  | null : Json
  | jb (x : Bool) : Json
  | ji (n : Int) : Json
  | js (v : String) : Json
  | jarr (xs : JArr) : Json
  | jobj (fs : JObj) : Json

inductive JArr where
  | nil : JArr
  | cons (hd : Json) (tl : JArr) : JArr

inductive JObj where
  | nil : JObj
  | cons (k : String) (v : Json) (tl : JObj) : JObj

end

/-- Lookup of a key in a JSON object, `path in value` / `value[path]`. -/
def jlookup : JObj → String → Option Json
  | JObj.nil, _ => none
  | JObj.cons k v rest, key => if k = key then some v else jlookup rest key

mutual

/-- Python `repr()` of a JSON value (containers render their elements with
`repr`, strings are quoted). -/
def pyRepr : Json → String
  | Json.null => "None"
  | Json.jb true => "True"
  | Json.jb false => "False"
  | Json.ji n => toString n
  | Json.js v => "'" ++ v ++ "'"
  | Json.jarr xs => "[" ++ pyReprArr xs ++ "]"
  | Json.jobj fs => "\x7b" ++ pyReprObj fs ++ "\x7d"

/-- Comma-joined `repr` of array elements. -/
def pyReprArr : JArr → String
  | JArr.nil => ""
  | JArr.cons x JArr.nil => pyRepr x
  | JArr.cons x tl => pyRepr x ++ ", " ++ pyReprArr tl

/-- Comma-joined `repr` of object entries. -/
def pyReprObj : JObj → String
  | JObj.nil => ""
  | JObj.cons k v JObj.nil => "'" ++ k ++ "': " ++ pyRepr v
  | JObj.cons k v tl => "'" ++ k ++ "': " ++ pyRepr v ++ ", " ++ pyReprObj tl

end

/-- Python `str()` of a JSON value (identity on strings, `repr`-like
otherwise). -/
def pyStr : Json → String
  | Json.js v => v
  | v => pyRepr v

/-- Python truthiness of a JSON value. -/
def pyTruthy : Json → Bool
  | Json.null => false
  | Json.jb x => x
  | Json.ji n => n ≠ 0
  | Json.js v => v ≠ ""
  | Json.jarr JArr.nil => false
  | Json.jarr _ => true
  | Json.jobj JObj.nil => false
  | Json.jobj _ => true

/-- The dot-path walk loop shared by `extract_country_code` and the IP
extraction: descend while the current value is a dict containing the key,
else the loop breaks with `None`. -/
def walkSteps : List String → Json → Option Json
  | [], v => some v
  | p :: ps, Json.jobj fs =>
      match jlookup fs p with
      | some v => walkSteps ps v
      | none => none
  | _ :: _, _ => none

/-- Split a character list at every separator, Python `str.split(sep)`
semantics (an empty input yields one empty piece). -/
def splitOnChar (sep : Char) : List Char → List (List Char)
  | [] => [[]]
  | c :: rest =>
      let r := splitOnChar sep rest
      if c = sep then [] :: r
      else
        match r with
        | [] => [[c]]
        | h :: t => (c :: h) :: t

/-- Python `path.split(".")`. -/
def pySplitDot (s : String) : List String :=
  (splitOnChar '.' s.data).map (fun l => ⟨l⟩)

/-- Walk a dot-separated path (`path.split(".")`) into a JSON body. -/
def walkPath (body : Json) (path : String) : Option Json :=
  walkSteps (pySplitDot path) body

/-! ### IPDetector (src/core/proxy/proxy_checker.py) -/

/-- Per-API endpoint state, as stored in `IPDetector.api_states`. -/
structure ApiState where
  last_used : Nat
  success_count : Nat
  failure_count : Nat
  blocked_until : Nat
deriving Repr, DecidableEq

/-- The state a fresh entry receives (`blocked_until` etc. default to 0). -/
def ApiState.fresh (now : Nat) : ApiState :=
  { last_used := now, success_count := 0, failure_count := 0, blocked_until := 0 }

/-- One IP-detection API entry of the `ip_apis` configuration list. -/
structure ApiConfig where
  url : String
  country_path : Option String
  cnip_path : Option String
  ip_path : Option String
deriving Repr, DecidableEq

/-- IPDetector instance state: the configured APIs and their states. -/
structure IPDetector where
  ip_apis : List ApiConfig
  api_states : List (String × ApiState)
deriving Repr, DecidableEq

/-- State read `self.api_states.get(url, {})` followed by
`.get("blocked_until", 0)`-style field reads: a missing entry reads as
all-zero. -/
def stateOf (states : List (String × ApiState)) (url : String) : ApiState :=
  (alookup states url).getD ⟨0, 0, 0, 0⟩

/-- The APIs not currently cooling down, `available_apis` of
IPDetector.get_next_available_api (an API is skipped iff
`current_time < blocked_until`). -/
def availableApis (d : IPDetector) (now : Nat) : List ApiConfig :=
  d.ip_apis.filter (fun api => ! decide (now < (stateOf d.api_states api.url).blocked_until))

/-- The fail-open branch of get_next_available_api: every cooldown is
reset. -/
def resetAllCooldowns (d : IPDetector) : IPDetector :=
  { d with api_states := d.api_states.map (fun us => (us.1, { us.2 with blocked_until := 0 })) }

/-- IPDetector.get_next_available_api: choose uniformly among non-cooling
APIs (the random draw is the explicit index `pick`), updating `last_used`;
if none is available, reset every cooldown and draw from the full list. -/
def get_next_available_api (d : IPDetector) (now pick : Nat) :
    Option ApiConfig × IPDetector :=
  match (availableApis d now).get? (pick % (availableApis d now).length) with
  | some sel =>
      (some sel,
       { d with api_states := aset d.api_states sel.url
                  { stateOf d.api_states sel.url with last_used := now } })
  | none =>
      ((resetAllCooldowns d).ip_apis.get? (pick % (resetAllCooldowns d).ip_apis.length),
       resetAllCooldowns d)

/-- IPDetector.update_api_state: create a fresh entry when the URL is
unknown, then bump the success or failure counter; on every failure count
divisible by 5 the API is blocked until `now + 300`. -/
def update_api_state (states : List (String × ApiState)) (api_url : String)
    (success : Bool) (now : Nat) : List (String × ApiState) :=
  let states :=
    if acontains states api_url then states else aset states api_url (ApiState.fresh now)
  let st := stateOf states api_url
  if success then
    aset states api_url { st with success_count := st.success_count + 1 }
  else
    let st := { st with failure_count := st.failure_count + 1 }
    let st := if st.failure_count % 5 = 0 then { st with blocked_until := now + 300 } else st
    aset states api_url st

/-- Test for a CJK character, `'一' <= ch <= '鿿'`. -/
def isChineseChar (c : Char) : Bool :=
  0x4e00 ≤ c.toNat && c.toNat ≤ 0x9fff

/-- Test whether a string contains a CJK character. -/
def hasChinese (s : String) : Bool :=
  s.data.any isChineseChar

/-- Test whether `a` begins the character sequence `b`. -/
def startsWithSeq : List Char → List Char → Bool
  | [], _ => true
  | _ :: _, [] => false
  | c :: cs, d :: ds => c = d && startsWithSeq cs ds

/-- Test whether `a` occurs contiguously inside `b`. -/
def containsSeq (a : List Char) : List Char → Bool
  | [] => startsWithSeq a []
  | d :: ds => startsWithSeq a (d :: ds) || containsSeq a ds

/-- Python substring test `a in b`. -/
def pyIn (a b : String) : Bool :=
  containsSeq a.data b.data

/-- The Chinese-alias fallback scan of `extract_country_code`: for each code
of COUNTRY_CODE_ALIASES, try its CJK aliases; the first alias that contains
or is contained in the name wins. -/
def aliasScan (country_name : String) : Option String :=
  COUNTRY_CODE_ALIASES.foldl
    (fun found ca =>
      match found with
      | some c => some c
      | none =>
          let chinese_aliases := ca.2.filter hasChinese
          if chinese_aliases.any (fun al => pyIn al country_name || pyIn country_name al) then
            some ca.1
          else none)
    none

/-- Membership list of the special-region gate in the `cnip` branch. -/
def specialRegionNames : List String :=
  ["香港", "澳门", "台湾", "Hong Kong", "Macau", "Macao", "Taiwan"]

/-- The `special_regions` dict of the `cnip` branch. -/
def specialRegions (info : String) : Option String :=
  dlookup
    [("香港", "HK"), ("Hong Kong", "HK"),
     ("澳门", "MO"), ("Macau", "MO"), ("Macao", "MO"),
     ("台湾", "TW"), ("Taiwan", "TW")] info

/-- IPDetector.extract_country_code over the mapper table `tbl`:
(1) walk `country_path` for a raw country value; (2) a 2-letter ASCII token
present in the table is taken as an ISO code; (3) otherwise resolve the text
through `get_country_code`, with a CJK-alias substring fallback; (4) walk
`cnip_path` for the mainland-China flag, which defaults the result to "CN"
unless the raw text named a special region, in which case that region's code
is used. -/
def extractCountryCodeT (tbl : List (String × String)) (response_json : Json)
    (api_config : ApiConfig) : Option String :=
  -- step 1: raw value from country_path
  let raw_value : Option String :=
    match api_config.country_path with
    | some cp =>
        if cp = "" then none
        else
          match walkPath response_json cp with
          | some v => if pyTruthy v then some (pyStr v) else none
          | none => none
    | none => none
  let country_info := raw_value
  -- step 4 flag: cnip_path, true only for the literal True
  let cnip : Bool :=
    match api_config.cnip_path with
    | some sp =>
        if sp = "" then false
        else
          match walkPath response_json sp with
          | some (Json.jb true) => true
          | _ => false
    | none => false
  -- steps 2 and 3: process the raw value
  let country_code : Option String :=
    match raw_value with
    | none => none
    | some rv0 =>
        if rv0 = "" then none
        else
          let rv := pyStrip rv0
          let iso : Option String :=
            if rv.length = 2 && rv.data.all (fun c => c.toNat < 128) then
              let iso_code := pyUpper rv
              if dcontains tbl iso_code then some iso_code else none
            else none
          match iso with
          | some c => some c
          | none =>
              match getCountryCodeT tbl rv with
              | some c => some c
              | none => if hasChinese rv then aliasScan rv else none
  -- step 4: mainland default / special-region override
  match country_code with
  | some c => some c
  | none =>
      if cnip then
        match country_info with
        | none => some "CN"
        | some info =>
            if specialRegionNames.contains info then specialRegions info
            else some "CN"
      else none

/-- IPDetector.extract_country_code of a detector built over the process
mapper instance. -/
def extract_country_code (response_json : Json) (api_config : ApiConfig) : Option String :=
  extractCountryCodeT countryMapping response_json api_config

end PMS

namespace PMS

/-! ### ProxyChecker URL rotation (src/core/proxy/proxy_checker.py) -/

/-- ProxyChecker's test-URL rotation state: the URL list plus the status,
blocked-set, cooldown and last-used tracking dicts. -/
structure UrlTracker where
  test_urls : List String
  url_status : List (String × Bool)
  blocked_urls : List String
  url_cooldown : List (String × Nat)
  url_last_used : List (String × Nat)
deriving Repr, DecidableEq

/-- One iteration of `_initialize_url_tracking`: the URL becomes available
with zeroed timers. -/
def initStep (t : UrlTracker) (url : String) : UrlTracker :=
  { t with url_status := aset t.url_status url true,
           url_last_used := aset t.url_last_used url 0,
           url_cooldown := aset t.url_cooldown url 0 }

/-- ProxyChecker._initialize_url_tracking: every test URL becomes available
with zeroed timers, and the blocked set is cleared. -/
def initializeUrlTracking (tr : UrlTracker) : UrlTracker :=
  { tr.test_urls.foldl initStep tr with blocked_urls := [] }

/-- One iteration of the first loop of `_get_next_available_url`: a blocked
URL whose cooldown lies strictly in the past leaves the blocked set and
turns available again. -/
def releaseStep (now : Nat) (t : UrlTracker) (uc : String × Nat) : UrlTracker :=
  if now > uc.2 && t.blocked_urls.contains uc.1 then
    { t with blocked_urls := t.blocked_urls.erase uc.1,
             url_status := aset t.url_status uc.1 true }
  else t

/-- The first loop of `_get_next_available_url`, iterating `releaseStep`
over a snapshot of the cooldown dict. -/
def releaseCooldowns (tr : UrlTracker) (now : Nat) : UrlTracker :=
  tr.url_cooldown.foldl (releaseStep now) tr

/-- The `available_urls` comprehension: test URLs neither blocked nor
status-false (missing status reads as available). -/
def availableUrls (tr : UrlTracker) : List String :=
  tr.test_urls.filter (fun url =>
    ! tr.blocked_urls.contains url && (alookup tr.url_status url).getD true)

/-- Stable insertion step of Python `sorted`: insert after every strictly
smaller key, before equal keys that originally came later. -/
def insertByKey (key : String → Nat) (x : String) : List String → List String
  | [] => [x]
  | y :: ys => if key y < key x then y :: insertByKey key x ys else x :: y :: ys

/-- Python's stable `sorted(urls, key=...)`. -/
def sortByKeyStable (key : String → Nat) (xs : List String) : List String :=
  xs.foldr (insertByKey key) []

/-- The tracker and candidate list after the emptiness check of
`_get_next_available_url`: when no URL is available every state is reset
and the whole URL list becomes the candidate set. -/
def selectionPool (tr : UrlTracker) : UrlTracker × List String :=
  if (availableUrls tr).isEmpty then
    (initializeUrlTracking tr, (initializeUrlTracking tr).test_urls)
  else (tr, availableUrls tr)

/-- The sort key of `_get_next_available_url`,
`self._url_last_used.get(u, 0)`. -/
def urlSortKey (t : UrlTracker) (u : String) : Nat :=
  (alookup t.url_last_used u).getD 0

/-- ProxyChecker._get_next_available_url: release expired cooldowns, collect
the available URLs (resetting all tracking when none remains), and return
the least-recently-used one, stamping its use time.  `none` models the
IndexError the source would hit on an empty URL list. -/
def getNextAvailableUrl (tr : UrlTracker) (now : Nat) : Option String × UrlTracker :=
  match (sortByKeyStable (urlSortKey (selectionPool (releaseCooldowns tr now)).1)
      (selectionPool (releaseCooldowns tr now)).2).head? with
  | some sel =>
      (some sel,
       { (selectionPool (releaseCooldowns tr now)).1 with
         url_last_used :=
           aset (selectionPool (releaseCooldowns tr now)).1.url_last_used sel now })
  | none => (none, (selectionPool (releaseCooldowns tr now)).1)

/-- The status-code dependent cooldown of `_mark_url_blocked`: 60 seconds by
default, 300 for 429, 600 for 403, 900 for 503. -/
def cooldownForStatus (status_code : Nat) : Nat :=
  if status_code = 429 then 300
  else if status_code = 403 then 600
  else if status_code = 503 then 900
  else 60

/-- ProxyChecker._mark_url_blocked: untracked URLs are ignored; otherwise
the URL turns unavailable, joins the blocked set and receives its cooldown
deadline. -/
def markUrlBlocked (tr : UrlTracker) (url : String) (status_code : Nat) (now : Nat) : UrlTracker :=
  if ! acontains tr.url_status url then tr
  else
    { tr with
      url_status := aset tr.url_status url false,
      blocked_urls :=
        if tr.blocked_urls.contains url then tr.blocked_urls else tr.blocked_urls ++ [url],
      url_cooldown := aset tr.url_cooldown url (now + cooldownForStatus status_code) }

end PMS

namespace PMS

/-- C4: the two spec examples for IPDetector.extract_country_code: a body
whose `ipinfo.cnip` flag is the literal true yields "CN", and a body whose
`ipdata.info1` field holds 香港 yields "HK". -/
theorem c4_extract_country_code_examples :
    extract_country_code
      (Json.jobj (JObj.cons "ipinfo" (Json.jobj (JObj.cons "cnip" (Json.jb true) JObj.nil)) JObj.nil))
      { url := "", country_path := none, cnip_path := some "ipinfo.cnip", ip_path := none }
      = some "CN" ∧
    extract_country_code
      (Json.jobj (JObj.cons "ipdata" (Json.jobj (JObj.cons "info1" (Json.js "香港") JObj.nil)) JObj.nil))
      { url := "", country_path := some "ipdata.info1", cnip_path := none, ip_path := none }
      = some "HK" := by
  unfold extract_country_code
  rw [countryMapping_eval]
  decide

/-- C5: IPDetector.update_api_state evaluated at a sequence of four
failures, one success and one more failure on a fresh endpoint: the final
failure is only the first consecutive failure after the success, yet the
counter (which counts cumulative failures and is never reset by a success)
reaches 5 and the 5-minute cooldown is imposed, against the claimed
consecutive-failure trigger. -/
theorem c5_cooldown_on_cumulative_failures :
    ([false, false, false, false, true, false].foldl
        (fun st e => update_api_state st "api1" e 100) [("api1", ApiState.fresh 0)])
      = [("api1", { last_used := 0, success_count := 1, failure_count := 5,
                    blocked_until := 400 })] := by
  decide

end PMS

namespace PMS

/-- Membership after one stable-insertion step comes from the inserted
element or the original list. -/
theorem mem_of_mem_insertByKey (key : String → Nat) (x y : String) (l : List String)
    (h : y ∈ insertByKey key x l) : y = x ∨ y ∈ l := by
  induction l with
  | nil =>
      simp only [insertByKey, List.mem_singleton] at h
      exact Or.inl h
  | cons z zs ih =>
      simp only [insertByKey] at h
      split at h
      · rcases List.mem_cons.mp h with h | h
        · exact Or.inr (List.mem_cons.mpr (Or.inl h))
        · rcases ih h with h | h
          · exact Or.inl h
          · exact Or.inr (List.mem_cons.mpr (Or.inr h))
      · rcases List.mem_cons.mp h with h | h
        · exact Or.inl h
        · exact Or.inr h

/-- Stable insertion never produces the empty list. -/
theorem insertByKey_ne_nil (key : String → Nat) (x : String) (l : List String) :
    insertByKey key x l ≠ [] := by
  cases l with
  | nil => simp [insertByKey]
  | cons z zs => simp only [insertByKey]; split <;> simp

/-- The stable sort only permutes: its members come from the input. -/
theorem mem_of_mem_sortByKeyStable (key : String → Nat) (y : String) (xs : List String)
    (h : y ∈ sortByKeyStable key xs) : y ∈ xs := by
  induction xs with
  | nil => exact absurd h (by simp [sortByKeyStable])
  | cons x xs ih =>
      rcases mem_of_mem_insertByKey key x y _ h with h | h
      · simp [h]
      · simp [ih h]

/-- The stable sort of a non-empty list is non-empty. -/
theorem sortByKeyStable_ne_nil (key : String → Nat) (xs : List String) (hxs : xs ≠ []) :
    sortByKeyStable key xs ≠ [] := by
  cases xs with
  | nil => exact absurd rfl hxs
  | cons x xs => exact insertByKey_ne_nil key x _

/-- A release step keeps a URL blocked when its cooldown record has not yet
expired. -/
theorem mem_blocked_releaseStep (now : Nat) (t : UrlTracker) (uc : String × Nat) (u : String)
    (hu : u ∈ t.blocked_urls) (hcd : uc.1 = u → ¬ now > uc.2) :
    u ∈ (releaseStep now t uc).blocked_urls := by
  unfold releaseStep
  split
  · next hcond =>
      have h1 : now > uc.2 := by
        have := (Bool.and_eq_true _ _).mp hcond |>.1
        exact of_decide_eq_true this
      have hne : u ≠ uc.1 := fun he => hcd he.symm h1
      simpa using (List.mem_erase_of_ne hne).mpr hu
  · exact hu

/-- The release loop keeps a URL blocked when every cooldown record for it
lies in the future or present. -/
theorem mem_blocked_foldl_release (now : Nat) (u : String) (cs : List (String × Nat)) :
    ∀ t : UrlTracker, u ∈ t.blocked_urls → (∀ e ∈ cs, e.1 = u → ¬ now > e.2) →
      u ∈ (cs.foldl (releaseStep now) t).blocked_urls := by
  induction cs with
  | nil => intro t hu _; simpa using hu
  | cons c cs ih =>
      intro t hu hcd
      simp only [List.foldl_cons]
      exact ih _ (mem_blocked_releaseStep now t c u hu (hcd c (by simp)))
        (fun e he => hcd e (by simp [he]))

/-- releaseCooldowns keeps a URL blocked when every cooldown record for it
lies in the future or present. -/
theorem mem_blocked_releaseCooldowns (tr : UrlTracker) (now : Nat) (u : String)
    (hu : u ∈ tr.blocked_urls)
    (hcd : ∀ e ∈ tr.url_cooldown, e.1 = u → ¬ now > e.2) :
    u ∈ (releaseCooldowns tr now).blocked_urls :=
  mem_blocked_foldl_release now u tr.url_cooldown tr hu hcd

/-- Members of the available-URLs list are not in the blocked set. -/
theorem not_blocked_of_mem_availableUrls (tr : UrlTracker) (v : String)
    (h : v ∈ availableUrls tr) : v ∉ tr.blocked_urls := by
  have h2 := List.of_mem_filter h
  simp only [Bool.and_eq_true, Bool.not_eq_true'] at h2
  intro hv
  have hc : tr.blocked_urls.contains v = true := List.elem_eq_true_of_mem hv
  rw [h2.1] at hc
  exact Bool.false_ne_true hc

/-- Members of the available-APIs list have an expired (or absent)
cooldown. -/
theorem not_cooling_of_mem_availableApis (d : IPDetector) (now : Nat) (api : ApiConfig)
    (h : api ∈ availableApis d now) :
    ¬ now < (stateOf d.api_states api.url).blocked_until := by
  have h2 := List.of_mem_filter h
  simpa using h2

/-- A release step does not touch the test-URL list. -/
theorem test_urls_releaseStep (now : Nat) (t : UrlTracker) (uc : String × Nat) :
    (releaseStep now t uc).test_urls = t.test_urls := by
  unfold releaseStep; split <;> rfl

/-- The release loop does not touch the test-URL list. -/
theorem test_urls_foldl_release (now : Nat) (cs : List (String × Nat)) :
    ∀ t : UrlTracker, (cs.foldl (releaseStep now) t).test_urls = t.test_urls := by
  induction cs with
  | nil => intro t; rfl
  | cons c cs ih =>
      intro t
      simp only [List.foldl_cons]
      rw [ih, test_urls_releaseStep]

/-- An initialization step does not touch the test-URL list. -/
theorem test_urls_initStep (t : UrlTracker) (url : String) :
    (initStep t url).test_urls = t.test_urls := rfl

/-- The initialization loop does not touch the test-URL list. -/
theorem test_urls_foldl_init (us : List String) :
    ∀ t : UrlTracker, (us.foldl initStep t).test_urls = t.test_urls := by
  induction us with
  | nil => intro t; rfl
  | cons u us ih =>
      intro t
      simp only [List.foldl_cons]
      rw [ih, test_urls_initStep]

/-- `_initialize_url_tracking` does not touch the test-URL list. -/
theorem test_urls_initializeUrlTracking (tr : UrlTracker) :
    (initializeUrlTracking tr).test_urls = tr.test_urls := by
  unfold initializeUrlTracking
  exact test_urls_foldl_init tr.test_urls tr

end PMS

namespace PMS

/-- C3 counterexample: a detector with a single API cooling down until time
300 still returns that API at time 100, because the fail-open branch resets
every cooldown when no API is available. -/
theorem c3_failopen_returns_cooling_endpoint :
    (100 < (stateOf [("a", ⟨0, 0, 0, 300⟩)] "a").blocked_until) ∧
    (get_next_available_api
        { ip_apis := [{ url := "a", country_path := none, cnip_path := none, ip_path := none }],
          api_states := [("a", ⟨0, 0, 0, 300⟩)] } 100 0).1
      = some { url := "a", country_path := none, cnip_path := none, ip_path := none } := by
  decide

/-- A non-empty list is not `isEmpty`. -/
theorem isEmpty_false_of_ne_nil {α : Type} {l : List α} (h : l ≠ []) : l.isEmpty = false := by
  cases l with
  | nil => exact absurd rfl h
  | cons a t => rfl

/-- C3 amended: while some endpoint is outside its cooldown, neither
selector can return an endpoint whose cooldown has not expired, and both
selectors always return some endpoint while the candidate set is non-empty
(when every endpoint is cooling, the fail-open reset may return one early,
as the counterexample shows). -/
theorem c3_cooldown_respected_while_alternatives_exist :
    (∀ (d : IPDetector) (now pick : Nat) (url : String) (sel : ApiConfig),
        now < (stateOf d.api_states url).blocked_until →
        availableApis d now ≠ [] →
        (get_next_available_api d now pick).1 = some sel → sel.url ≠ url) ∧
    (∀ (d : IPDetector) (now pick : Nat), d.ip_apis ≠ [] →
        ((get_next_available_api d now pick).1).isSome) ∧
    (∀ (tr : UrlTracker) (now : Nat) (u sel : String),
        u ∈ tr.blocked_urls →
        (∀ e ∈ tr.url_cooldown, e.1 = u → ¬ now > e.2) →
        availableUrls (releaseCooldowns tr now) ≠ [] →
        (getNextAvailableUrl tr now).1 = some sel → sel ≠ u) ∧
    (∀ (tr : UrlTracker) (now : Nat), tr.test_urls ≠ [] →
        ((getNextAvailableUrl tr now).1).isSome) := by
  refine ⟨?_, ?_, ?_, ?_⟩
  · intro d now pick url sel hblock havail hres
    have hlen : 0 < (availableApis d now).length := List.length_pos.mpr havail
    have hlt : pick % (availableApis d now).length < (availableApis d now).length :=
      Nat.mod_lt _ hlen
    unfold get_next_available_api at hres
    rw [List.get?_eq_get hlt] at hres
    have h3 : some ((availableApis d now).get
        ⟨pick % (availableApis d now).length, hlt⟩) = some sel := hres
    have hmem : sel ∈ availableApis d now :=
      (Option.some.inj h3) ▸ List.get_mem _ _ _
    intro hurl
    exact not_cooling_of_mem_availableApis d now sel hmem (hurl ▸ hblock)
  · intro d now pick hne
    unfold get_next_available_api
    cases hg : (availableApis d now).get? (pick % (availableApis d now).length) with
    | some x => rfl
    | none =>
        have hlen : 0 < (resetAllCooldowns d).ip_apis.length := List.length_pos.mpr hne
        have hlt : pick % (resetAllCooldowns d).ip_apis.length
            < (resetAllCooldowns d).ip_apis.length := Nat.mod_lt _ hlen
        show ((resetAllCooldowns d).ip_apis.get?
            (pick % (resetAllCooldowns d).ip_apis.length)).isSome = true
        rw [List.get?_eq_get hlt]
        rfl
  · intro tr now u sel hu hcd havail hres
    have hub := mem_blocked_releaseCooldowns tr now u hu hcd
    have hpool : selectionPool (releaseCooldowns tr now)
        = (releaseCooldowns tr now, availableUrls (releaseCooldowns tr now)) := by
      simp [selectionPool, isEmpty_false_of_ne_nil havail]
    obtain ⟨a, l, hal⟩ := List.exists_cons_of_ne_nil
      (sortByKeyStable_ne_nil (urlSortKey (releaseCooldowns tr now)) _ havail)
    unfold getNextAvailableUrl at hres
    rw [hpool] at hres
    simp only at hres
    rw [hal, List.head?_cons] at hres
    have h3 : some a = some sel := hres
    obtain rfl := Option.some.inj h3
    have hmem : a ∈ sortByKeyStable (urlSortKey (releaseCooldowns tr now))
        (availableUrls (releaseCooldowns tr now)) := by
      rw [hal]; exact List.mem_cons_self a l
    have hsel := mem_of_mem_sortByKeyStable _ _ _ hmem
    intro he
    subst he
    exact not_blocked_of_mem_availableUrls _ _ hsel hub
  · intro tr now hne
    have hrel : (releaseCooldowns tr now).test_urls = tr.test_urls := by
      unfold releaseCooldowns
      rw [test_urls_foldl_release]
    unfold getNextAvailableUrl
    by_cases hie : (availableUrls (releaseCooldowns tr now)).isEmpty = true
    · have hpool : selectionPool (releaseCooldowns tr now)
          = (initializeUrlTracking (releaseCooldowns tr now),
             (initializeUrlTracking (releaseCooldowns tr now)).test_urls) := by
        simp [selectionPool, hie]
      have hne2 : (initializeUrlTracking (releaseCooldowns tr now)).test_urls ≠ [] := by
        rw [test_urls_initializeUrlTracking, hrel]
        exact hne
      obtain ⟨a, l, hal⟩ := List.exists_cons_of_ne_nil
        (sortByKeyStable_ne_nil
          (urlSortKey (initializeUrlTracking (releaseCooldowns tr now))) _ hne2)
      rw [hpool]
      simp only
      rw [hal, List.head?_cons]
      rfl
    · have havail : availableUrls (releaseCooldowns tr now) ≠ [] := by
        intro h
        exact hie (by rw [h]; rfl)
      have hpool : selectionPool (releaseCooldowns tr now)
          = (releaseCooldowns tr now, availableUrls (releaseCooldowns tr now)) := by
        simp [selectionPool, isEmpty_false_of_ne_nil havail]
      obtain ⟨a, l, hal⟩ := List.exists_cons_of_ne_nil
        (sortByKeyStable_ne_nil (urlSortKey (releaseCooldowns tr now)) _ havail)
      rw [hpool]
      simp only
      rw [hal, List.head?_cons]
      rfl

end PMS

namespace PMS

/-- Concrete instantiation of the amended C3 theorem: with API "a" cooling
until 300 and API "b" available at time 100, the selector does not return
"a" and does return something; likewise for the URL rotation. -/
theorem c3_cooldown_respected_witness :
    (¬ ((get_next_available_api
          { ip_apis := [{ url := "a", country_path := none, cnip_path := none, ip_path := none },
                        { url := "b", country_path := none, cnip_path := none, ip_path := none }],
            api_states := [("a", ⟨0, 0, 0, 300⟩)] } 100 0).1
        = some { url := "a", country_path := none, cnip_path := none, ip_path := none })) ∧
    ((get_next_available_api
          { ip_apis := [{ url := "a", country_path := none, cnip_path := none, ip_path := none },
                        { url := "b", country_path := none, cnip_path := none, ip_path := none }],
            api_states := [("a", ⟨0, 0, 0, 300⟩)] } 100 0).1).isSome ∧
    (¬ ((getNextAvailableUrl
          { test_urls := ["a", "b"], url_status := [("a", false), ("b", true)],
            blocked_urls := ["a"], url_cooldown := [("a", 300)], url_last_used := [] } 100).1
        = some "a")) ∧
    ((getNextAvailableUrl
          { test_urls := ["a", "b"], url_status := [("a", false), ("b", true)],
            blocked_urls := ["a"], url_cooldown := [("a", 300)], url_last_used := [] } 100).1).isSome := by
  refine ⟨?_, ?_, ?_, ?_⟩
  · intro h
    exact c3_cooldown_respected_while_alternatives_exist.1 _ 100 0 "a" _
      (by decide) (by decide) h rfl
  · exact c3_cooldown_respected_while_alternatives_exist.2.1 _ 100 0 (by decide)
  · intro h
    exact c3_cooldown_respected_while_alternatives_exist.2.2.1 _ 100 "a" "a"
      (by decide) (by decide) (by decide) h rfl
  · exact c3_cooldown_respected_while_alternatives_exist.2.2.2 _ 100 (by decide)

end PMS

namespace PMS

/-! ### ProxyManager result cache (src/core/proxy/proxy_manager.py) -/

/-- One `_proxy_cache` entry (per source type): the proxy dict (Python
`None` is `none`), the last check result, and the TTL bookkeeping. -/
structure CacheEntry where
  proxy : Option (List (String × String))
  check_result : Option (List (String × String))
  last_check_time : Nat
  expiry_time : Nat
  failures : Nat
deriving Repr, DecidableEq

/-- Python truthiness of an optional dict: `None` and the empty dict are
falsy. -/
def pyTruthyDict (d : Option (List (String × String))) : Bool :=
  match d with
  | none => false
  | some l => ! l.isEmpty

/-- The cache-validity test of get_proxy: the entry holds a truthy proxy
and check result and has not expired
(`cache["proxy"] and cache["check_result"] and current_time < cache["expiry_time"]`). -/
def cacheHit (c : CacheEntry) (now : Nat) : Bool :=
  pyTruthyDict c.proxy && pyTruthyDict c.check_result && decide (now < c.expiry_time)

/-- The `proxy.cache` settings read by `_load_config`. -/
structure CacheCfg where
  ttl : Nat
  failure_ttl : Nat
  max_failures : Nat
deriving Repr, DecidableEq

/-- ProxyManager._update_proxy_cache: store the proxy only on success,
stamp the check time, then set the expiry — full TTL and a reset failure
counter on success; on failure bump the counter and use the failure TTL,
except that reaching `max_failures` forces `expiry_time = 0`. -/
def updateProxyCache (cfg : CacheCfg) (c : CacheEntry)
    (proxy check_result : List (String × String)) (success : Bool) (now : Nat) : CacheEntry :=
  let c := { c with proxy := if success then some proxy else none,
                    check_result := some check_result,
                    last_check_time := now }
  if success then
    { c with failures := 0, expiry_time := now + cfg.ttl }
  else
    let c := { c with failures := c.failures + 1 }
    if c.failures ≥ cfg.max_failures then { c with expiry_time := 0 }
    else { c with expiry_time := now + cfg.failure_ttl }

/-- The outcome of one acquisition attempt inside get_proxy's `try` block:
a successful check returning the proxy dict, a failed check, an empty list
from the fixed source, or an exception (which the source catches). -/
inductive FetchOutcome where
  | ok (proxy check_result : List (String × String)) : FetchOutcome
  | checkFailed (check_result : List (String × String)) : FetchOutcome
  | noProxy : FetchOutcome
  | exc (msg : String) : FetchOutcome
deriving Repr, DecidableEq

/-- Whether an outcome is one of the three failure shapes. -/
def FetchOutcome.isFailure : FetchOutcome → Bool
  | FetchOutcome.ok _ _ => false
  | _ => true

/-- The recursive body of ProxyManager.get_proxy for a valid source type:
give up with an empty dict at `retry_count >= 3`; otherwise serve a valid
cache hit, or perform the attempt (`outcomes retry_count`, happening at
time `tnow retry_count`), updating the cache and — on any failure shape —
sleeping one second and retrying itself with `retry_count + 1`.  Returns
(result dict, final cache, number of 1-second sleeps). -/
def getProxyLoop (cfg : CacheCfg) (outcomes : Nat → FetchOutcome) (tnow : Nat → Nat)
    (c : CacheEntry) (retry_count : Nat) :
    List (String × String) × CacheEntry × Nat :=
  if retry_count ≥ 3 then ([], c, 0)
  else if cacheHit c (tnow retry_count) then (c.proxy.getD [], c, 0)
  else
    match outcomes retry_count with
    | FetchOutcome.ok p r =>
        (p, updateProxyCache cfg c p r true (tnow retry_count), 0)
    | FetchOutcome.checkFailed r =>
        let c2 := updateProxyCache cfg c [] r false (tnow retry_count)
        let rec2 := getProxyLoop cfg outcomes tnow c2 (retry_count + 1)
        (rec2.1, rec2.2.1, rec2.2.2 + 1)
    | FetchOutcome.noProxy =>
        let c2 := updateProxyCache cfg c [] [("error", "获取代理失败")] false (tnow retry_count)
        let rec2 := getProxyLoop cfg outcomes tnow c2 (retry_count + 1)
        (rec2.1, rec2.2.1, rec2.2.2 + 1)
    | FetchOutcome.exc msg =>
        let c2 := updateProxyCache cfg c [] [("error", msg)] false (tnow retry_count)
        let rec2 := getProxyLoop cfg outcomes tnow c2 (retry_count + 1)
        (rec2.1, rec2.2.1, rec2.2.2 + 1)
termination_by 3 - retry_count

/-- ProxyManager.get_proxy: source types other than direct and fixed yield
an empty dict immediately; valid ones run the retry loop from
`retry_count = 0`. -/
def get_proxy (cfg : CacheCfg) (outcomes : Nat → FetchOutcome) (tnow : Nat → Nat)
    (c : CacheEntry) (source_type : String) :
    List (String × String) × CacheEntry × Nat :=
  if source_type = "direct" || source_type = "fixed" then
    getProxyLoop cfg outcomes tnow c 0
  else ([], c, 0)

end PMS


namespace PMS

/-- A failed cache update can never produce a cache hit: the stored proxy is
`None`, which is falsy in the validity test. -/
theorem cacheHit_after_failure (cfg : CacheCfg) (c : CacheEntry)
    (p r : List (String × String)) (now t : Nat) :
    cacheHit (updateProxyCache cfg c p r false now) t = false := by
  simp only [updateProxyCache, Bool.false_eq_true, if_false]
  split <;> rfl

/-- C6: on a successful check the failure counter resets and the entry gets
the full TTL; on a failed check the counter is bumped and the entry gets
the failure TTL, except that once the bumped counter reaches
`max_failures` the expiry is forced to 0 — after which the cache-validity
test of get_proxy fails at every time, so the next call must perform a
fresh probe even inside what would have been the failure-TTL window. -/
theorem c6_cache_update_ttl_and_forced_expiry
    (cfg : CacheCfg) (c : CacheEntry) (p r : List (String × String)) (now : Nat) :
    ((updateProxyCache cfg c p r true now).failures = 0 ∧
     (updateProxyCache cfg c p r true now).expiry_time = now + cfg.ttl) ∧
    ((updateProxyCache cfg c p r false now).failures = c.failures + 1 ∧
     (c.failures + 1 ≥ cfg.max_failures →
        (updateProxyCache cfg c p r false now).expiry_time = 0 ∧
        ∀ t : Nat, cacheHit (updateProxyCache cfg c p r false now) t = false) ∧
     (c.failures + 1 < cfg.max_failures →
        (updateProxyCache cfg c p r false now).expiry_time = now + cfg.failure_ttl)) := by
  refine ⟨⟨?_, ?_⟩, ?_, ?_, ?_⟩
  · simp [updateProxyCache]
  · simp [updateProxyCache]
  · simp only [updateProxyCache, Bool.false_eq_true, if_false]
    split <;> rfl
  · intro hge
    refine ⟨?_, fun t => cacheHit_after_failure cfg c p r now t⟩
    simp only [updateProxyCache, Bool.false_eq_true, if_false]
    rw [if_pos]
    exact hge
  · intro hlt
    simp only [updateProxyCache, Bool.false_eq_true, if_false]
    rw [if_neg]
    omega

/-- Closed instantiation of the C6 theorem: a concrete entry at failure
count 2 with max_failures 3 is forced to expiry 0 and misses at any time in
the failure-TTL window, while a success grants the full TTL. -/
theorem c6_cache_update_witness :
    ((updateProxyCache ⟨300, 30, 3⟩ ⟨none, none, 0, 0, 2⟩ [("ip", "1.2.3.4")] [("success", "True")] true 1000).failures = 0 ∧
     (updateProxyCache ⟨300, 30, 3⟩ ⟨none, none, 0, 0, 2⟩ [("ip", "1.2.3.4")] [("success", "True")] true 1000).expiry_time = 1300) ∧
    ((updateProxyCache ⟨300, 30, 3⟩ ⟨none, none, 0, 0, 2⟩ [] [("error", "x")] false 1000).failures = 3 ∧
     (updateProxyCache ⟨300, 30, 3⟩ ⟨none, none, 0, 0, 2⟩ [] [("error", "x")] false 1000).expiry_time = 0 ∧
     cacheHit (updateProxyCache ⟨300, 30, 3⟩ ⟨none, none, 0, 0, 2⟩ [] [("error", "x")] false 1000) 1010 = false) := by
  have h := c6_cache_update_ttl_and_forced_expiry ⟨300, 30, 3⟩ ⟨none, none, 0, 0, 2⟩
    [("ip", "1.2.3.4")] [("success", "True")] 1000
  have h2 := c6_cache_update_ttl_and_forced_expiry ⟨300, 30, 3⟩ ⟨none, none, 0, 0, 2⟩
    [] [("error", "x")] 1000
  exact ⟨⟨h.1.1, h.1.2⟩, h2.2.1, (h2.2.2.1 (by decide)).1, (h2.2.2.1 (by decide)).2 1010⟩

/-- When every attempt fails, the retry loop from `retry_count = k` returns
the empty dict after `3 - k` sleep-and-retry rounds. -/
theorem getProxyLoop_all_fail (cfg : CacheCfg) (outcomes : Nat → FetchOutcome)
    (tnow : Nat → Nat) :
    ∀ n k c, 3 - k ≤ n → (∀ i, (outcomes i).isFailure = true) →
      cacheHit c (tnow k) = false →
      (getProxyLoop cfg outcomes tnow c k).1 = [] ∧
      (getProxyLoop cfg outcomes tnow c k).2.2 = 3 - k := by
  intro n
  induction n with
  | zero =>
      intro k c hle hfail hmiss
      have hk : k ≥ 3 := by omega
      unfold getProxyLoop
      rw [if_pos hk]
      refine ⟨rfl, ?_⟩
      show (0 : Nat) = 3 - k
      omega
  | succ n ih =>
      intro k c hle hfail hmiss
      by_cases hk : k ≥ 3
      · unfold getProxyLoop
        rw [if_pos hk]
        refine ⟨rfl, ?_⟩
        show (0 : Nat) = 3 - k
        omega
      · unfold getProxyLoop
        rw [if_neg hk, if_neg (by simp [hmiss])]
        have hfk := hfail k
        cases ho : outcomes k with
        | ok p r => rw [ho] at hfk; exact absurd hfk (by simp [FetchOutcome.isFailure])
        | checkFailed r =>
            have hrec := ih (k + 1) (updateProxyCache cfg c [] r false (tnow k))
              (by omega) hfail (cacheHit_after_failure cfg c [] r (tnow k) (tnow (k + 1)))
            have h2 : (getProxyLoop cfg outcomes tnow
                (updateProxyCache cfg c [] r false (tnow k)) (k + 1)).2.2 + 1 = 3 - k := by
              rw [hrec.2]; omega
            exact ⟨hrec.1, h2⟩
        | noProxy =>
            have hrec := ih (k + 1)
              (updateProxyCache cfg c [] [("error", "获取代理失败")] false (tnow k))
              (by omega) hfail (cacheHit_after_failure cfg c [] _ (tnow k) (tnow (k + 1)))
            have h2 : (getProxyLoop cfg outcomes tnow
                (updateProxyCache cfg c [] [("error", "获取代理失败")] false (tnow k))
                (k + 1)).2.2 + 1 = 3 - k := by
              rw [hrec.2]; omega
            exact ⟨hrec.1, h2⟩
        | exc msg =>
            have hrec := ih (k + 1)
              (updateProxyCache cfg c [] [("error", msg)] false (tnow k))
              (by omega) hfail (cacheHit_after_failure cfg c [] _ (tnow k) (tnow (k + 1)))
            have h2 : (getProxyLoop cfg outcomes tnow
                (updateProxyCache cfg c [] [("error", msg)] false (tnow k))
                (k + 1)).2.2 + 1 = 3 - k := by
              rw [hrec.2]; omega
            exact ⟨hrec.1, h2⟩

/-- C7: for a valid source type, when the cache misses and every underlying
attempt fails (a failed check, an empty fixed-source answer, or a caught
exception — the total `FetchOutcome` failure shapes are exactly the paths
the source's `try`/`except` funnels into the retry branch, so no exception
escapes to the caller), get_proxy retries itself with a 1-second pause
after each of its 3 attempts and then returns the empty dict. -/
theorem c7_get_proxy_retries_then_returns_empty
    (cfg : CacheCfg) (outcomes : Nat → FetchOutcome) (tnow : Nat → Nat)
    (c : CacheEntry) (source_type : String)
    (hst : source_type = "direct" ∨ source_type = "fixed")
    (hfail : ∀ i, (outcomes i).isFailure = true)
    (hmiss : cacheHit c (tnow 0) = false) :
    (get_proxy cfg outcomes tnow c source_type).1 = [] ∧
    (get_proxy cfg outcomes tnow c source_type).2.2 = 3 := by
  have hloop := getProxyLoop_all_fail cfg outcomes tnow 3 0 c (by omega) hfail hmiss
  rcases hst with h | h <;> subst h <;>
    simpa [get_proxy] using hloop

/-- Closed instantiation of the C7 theorem: a fresh cache and a stream of
failed checks yield the empty dict after exactly 3 paused retries. -/
theorem c7_get_proxy_witness :
    (get_proxy ⟨300, 30, 3⟩ (fun _ => FetchOutcome.checkFailed [("error", "直连不可用")])
        (fun i => 100 + i) ⟨none, none, 0, 0, 0⟩ "direct").1 = [] ∧
    (get_proxy ⟨300, 30, 3⟩ (fun _ => FetchOutcome.checkFailed [("error", "直连不可用")])
        (fun i => 100 + i) ⟨none, none, 0, 0, 0⟩ "direct").2.2 = 3 :=
  c7_get_proxy_retries_then_returns_empty ⟨300, 30, 3⟩
    (fun _ => FetchOutcome.checkFailed [("error", "直连不可用")])
    (fun i => 100 + i) ⟨none, none, 0, 0, 0⟩ "direct"
    (Or.inl rfl) (fun _ => rfl) (by decide)

end PMS

namespace PMS

/-! ### CircuitBreaker (src/utils/circuit_breaker.py)

`failure_rate_threshold` is a Python float; it is modelled as a rational
number, which agrees with the float on every comparison the embedded data
performs.  Event listeners only observe transitions (their exceptions are
caught), so they do not appear in the state. -/

/-- The CircuitState enum. -/
inductive CircuitState where
  | CLOSED : CircuitState
  | OPEN : CircuitState
  | HALF_OPEN : CircuitState
deriving Repr, DecidableEq

/-- The FailureType enum. -/
inductive FailureType where
  | CONSECUTIVE : FailureType
  | PERCENTAGE : FailureType
  | TOTAL : FailureType
deriving Repr, DecidableEq

/-- The constructor parameters of CircuitBreaker. -/
structure BreakerCfg where
  failure_threshold : Nat
  reset_timeout : Nat
  failure_type : FailureType
  window_size : Nat
  failure_rate_threshold : ℚ
  half_open_max_trials : Nat

/-- The mutable state of a CircuitBreaker instance. -/
structure BreakerState where
  state : CircuitState
  consecutive_failures : Nat
  results_window : List Bool
  last_state_change : Nat
  half_open_trial_count : Nat
deriving Repr, DecidableEq

/-- The state written by `__init__` at construction time. -/
def initialBreaker (now : Nat) : BreakerState :=
  { state := CircuitState.CLOSED, consecutive_failures := 0, results_window := [],
    last_state_change := now, half_open_trial_count := 0 }

/-- CircuitBreaker._transition_to_state: set the state and stamp the change
time (the emitted event does not alter the state). -/
def transitionToState (st : BreakerState) (new_state : CircuitState) (now : Nat) : BreakerState :=
  { st with state := new_state, last_state_change := now }

/-- The bounded-window append of `_on_success`/`_on_failure`: push the
outcome and pop the oldest entry beyond `window_size`. -/
def pushWindow (cfg : BreakerCfg) (w : List Bool) (x : Bool) : List Bool :=
  let w := w ++ [x]
  if w.length > cfg.window_size then w.drop 1 else w

/-- CircuitBreaker._on_success: clear the consecutive-failure counter,
record the outcome in window modes, and close the breaker when half
open. -/
def onSuccess (cfg : BreakerCfg) (st : BreakerState) (now : Nat) : BreakerState :=
  let st := { st with consecutive_failures := 0 }
  let st :=
    if cfg.failure_type = FailureType.PERCENTAGE ∨ cfg.failure_type = FailureType.TOTAL then
      { st with results_window := pushWindow cfg st.results_window true }
    else st
  if st.state = CircuitState.HALF_OPEN then transitionToState st CircuitState.CLOSED now else st

/-- CircuitBreaker._on_failure: record the outcome in window modes, apply
the trigger policy of the configured failure type (threshold breaches open
a CLOSED breaker), and reopen a HALF_OPEN breaker on any failure. -/
def onFailure (cfg : BreakerCfg) (st : BreakerState) (now : Nat) : BreakerState :=
  let st :=
    if cfg.failure_type = FailureType.PERCENTAGE ∨ cfg.failure_type = FailureType.TOTAL then
      { st with results_window := pushWindow cfg st.results_window false }
    else st
  let st :=
    if cfg.failure_type = FailureType.CONSECUTIVE then
      let st := { st with consecutive_failures := st.consecutive_failures + 1 }
      if st.state = CircuitState.CLOSED ∧ st.consecutive_failures ≥ cfg.failure_threshold then
        transitionToState st CircuitState.OPEN now
      else st
    else if cfg.failure_type = FailureType.PERCENTAGE ∧ st.results_window.length > 0 then
      let failure_count := st.results_window.count false
      let failure_rate : ℚ := (failure_count : ℚ) / (st.results_window.length : ℚ)
      if st.state = CircuitState.CLOSED ∧
          st.results_window.length ≥ min cfg.window_size 3 ∧
          failure_rate ≥ cfg.failure_rate_threshold then
        transitionToState st CircuitState.OPEN now
      else st
    else if cfg.failure_type = FailureType.TOTAL then
      let failure_count := st.results_window.count false
      if st.state = CircuitState.CLOSED ∧ failure_count ≥ cfg.failure_threshold then
        transitionToState st CircuitState.OPEN now
      else st
    else st
  if st.state = CircuitState.HALF_OPEN then transitionToState st CircuitState.OPEN now else st

/-- The admission block of CircuitBreaker.execute: CLOSED admits; OPEN
admits (turning HALF_OPEN with one trial taken) only after the reset
timeout; HALF_OPEN admits while trials remain. -/
def executeAdmission (cfg : BreakerCfg) (st : BreakerState) (now : Nat) : Bool × BreakerState :=
  if st.state = CircuitState.CLOSED then (true, st)
  else if st.state = CircuitState.OPEN then
    if now > st.last_state_change + cfg.reset_timeout then
      let st := transitionToState st CircuitState.HALF_OPEN now
      (true, { st with half_open_trial_count := 1 })
    else (false, st)
  else
    if st.half_open_trial_count < cfg.half_open_max_trials then
      (true, { st with half_open_trial_count := st.half_open_trial_count + 1 })
    else (false, st)

/-- CircuitBreaker.execute with the action's success abstracted to a
boolean: a rejected request leaves the post-admission state (the caller
sees the fallback or a RuntimeError); an admitted one reports its outcome.
The returned flag is whether the request was admitted. -/
def execute (cfg : BreakerCfg) (st : BreakerState) (now : Nat) (action_succeeds : Bool) :
    Bool × BreakerState :=
  match executeAdmission cfg st now with
  | (false, st2) => (false, st2)
  | (true, st2) =>
      (true, if action_succeeds then onSuccess cfg st2 now else onFailure cfg st2 now)

end PMS

namespace PMS

/-- A CONSECUTIVE-mode configuration with threshold 3, as named by the
claim; the window, rate and trial parameters are irrelevant to this mode
and stay universally quantified. -/
def consecutiveCfg (rt ws homt : Nat) (frt : ℚ) : BreakerCfg :=
  { failure_threshold := 3, reset_timeout := rt, failure_type := FailureType.CONSECUTIVE,
    window_size := ws, failure_rate_threshold := frt, half_open_max_trials := homt }

/-- C8: from a freshly constructed breaker with failure_type CONSECUTIVE
and threshold 3, exactly three report_failure calls open the breaker; then,
once the reset timeout has elapsed since the last state change (the third
failure's transition), a single execute whose action succeeds passes
through HALF_OPEN at admission and ends CLOSED. -/
theorem c8_consecutive_breaker_cycle (rt ws homt t0 t1 t2 t3 texec : Nat) (frt : ℚ)
    (htime : texec > t3 + rt) :
    (onFailure (consecutiveCfg rt ws homt frt)
       (onFailure (consecutiveCfg rt ws homt frt)
         (onFailure (consecutiveCfg rt ws homt frt) (initialBreaker t0) t1) t2) t3).state
      = CircuitState.OPEN ∧
    ((executeAdmission (consecutiveCfg rt ws homt frt)
       (onFailure (consecutiveCfg rt ws homt frt)
         (onFailure (consecutiveCfg rt ws homt frt)
           (onFailure (consecutiveCfg rt ws homt frt) (initialBreaker t0) t1) t2) t3)
       texec).2).state = CircuitState.HALF_OPEN ∧
    ((execute (consecutiveCfg rt ws homt frt)
       (onFailure (consecutiveCfg rt ws homt frt)
         (onFailure (consecutiveCfg rt ws homt frt)
           (onFailure (consecutiveCfg rt ws homt frt) (initialBreaker t0) t1) t2) t3)
       texec true).2).state = CircuitState.CLOSED := by
  have h1 : onFailure (consecutiveCfg rt ws homt frt) (initialBreaker t0) t1
      = { state := CircuitState.CLOSED, consecutive_failures := 1, results_window := [],
          last_state_change := t0, half_open_trial_count := 0 } := by
    simp [onFailure, consecutiveCfg, initialBreaker, transitionToState]
  have h2 : onFailure (consecutiveCfg rt ws homt frt)
      { state := CircuitState.CLOSED, consecutive_failures := 1, results_window := [],
        last_state_change := t0, half_open_trial_count := 0 } t2
      = { state := CircuitState.CLOSED, consecutive_failures := 2, results_window := [],
          last_state_change := t0, half_open_trial_count := 0 } := by
    simp [onFailure, consecutiveCfg, transitionToState]
  have h3 : onFailure (consecutiveCfg rt ws homt frt)
      { state := CircuitState.CLOSED, consecutive_failures := 2, results_window := [],
        last_state_change := t0, half_open_trial_count := 0 } t3
      = { state := CircuitState.OPEN, consecutive_failures := 3, results_window := [],
          last_state_change := t3, half_open_trial_count := 0 } := by
    simp [onFailure, consecutiveCfg, transitionToState]
  rw [h1, h2, h3]
  have hadm : executeAdmission (consecutiveCfg rt ws homt frt)
      { state := CircuitState.OPEN, consecutive_failures := 3, results_window := [],
        last_state_change := t3, half_open_trial_count := 0 } texec
      = (true, { state := CircuitState.HALF_OPEN, consecutive_failures := 3,
                 results_window := [], last_state_change := texec,
                 half_open_trial_count := 1 }) := by
    simp [executeAdmission, consecutiveCfg, transitionToState, htime]
  refine ⟨rfl, ?_, ?_⟩
  · rw [hadm]
  · unfold execute
    rw [hadm]
    simp [onSuccess, consecutiveCfg, transitionToState]

/-- Closed instantiation of the C8 theorem at reset_timeout 60 with the
three failures at times 1, 2, 3 and the successful execute at time 64. -/
theorem c8_consecutive_breaker_witness :
    (onFailure (consecutiveCfg 60 10 1 (1/2))
       (onFailure (consecutiveCfg 60 10 1 (1/2))
         (onFailure (consecutiveCfg 60 10 1 (1/2)) (initialBreaker 0) 1) 2) 3).state
      = CircuitState.OPEN ∧
    ((execute (consecutiveCfg 60 10 1 (1/2))
       (onFailure (consecutiveCfg 60 10 1 (1/2))
         (onFailure (consecutiveCfg 60 10 1 (1/2))
           (onFailure (consecutiveCfg 60 10 1 (1/2)) (initialBreaker 0) 1) 2) 3)
       64 true).2).state = CircuitState.CLOSED := by
  have h := c8_consecutive_breaker_cycle 60 10 1 0 1 2 3 64 (1/2) (by omega)
  exact ⟨h.1, h.2.2⟩

end PMS
namespace PMS

/-- The projections of one check result dict that the statistics loop of
batch_check_async reads: key presence and truthiness of `response_time`,
`country_match` and `error` (with the "IP地区不匹配" substring test). -/
structure BatchResultInfo where
  has_response_time : Bool
  response_time : Nat
  has_country_match : Bool
  country_match : Bool
  has_error : Bool
  error_mismatch : Bool
deriving Repr, DecidableEq

/-- One element of the `asyncio.gather(..., return_exceptions=True)` result:
either an exception object, or the `(proxy, success, check_result)` triple
of `_check_with_semaphore` (the proxy component does not affect the
statistics). -/
inductive BatchOutcome where
  | exc (msg : String) : BatchOutcome
  | done (success : Bool) (result : BatchResultInfo) : BatchOutcome
deriving Repr, DecidableEq

/-- The `results` statistics dict of batch_check_async. -/
structure BatchStats where
  total : Nat
  available : Nat
  unavailable : Nat
  avg_response_time : Nat
  country_matched : Nat
  country_mismatched : Nat
deriving Repr, DecidableEq

/-- The statistics dict together with the two loop-local accumulators
`total_response_time` and `available_count`. -/
structure BatchAcc where
  stats : BatchStats
  total_response_time : Nat
  available_count : Nat
deriving Repr, DecidableEq

/-- One iteration of the result-statistics loop of batch_check_async: an
exception counts as unavailable; a success bumps `available` (plus the
response-time and country-matched tallies); a failure bumps `unavailable`
(plus country-mismatched exactly when the error holds the mismatch
substring).  The callback invocation has no effect on the statistics. -/
def tallyOutcome (acc : BatchAcc) (o : BatchOutcome) : BatchAcc :=
  match o with
  | BatchOutcome.exc _ =>
      { acc with stats := { acc.stats with unavailable := acc.stats.unavailable + 1 } }
  | BatchOutcome.done s r =>
      if s then
        let acc := { acc with
          stats := { acc.stats with available := acc.stats.available + 1 },
          available_count := acc.available_count + 1 }
        let acc :=
          if r.has_response_time then
            { acc with total_response_time := acc.total_response_time + r.response_time }
          else acc
        if r.has_country_match then
          if r.country_match then
            { acc with stats := { acc.stats with country_matched := acc.stats.country_matched + 1 } }
          else acc
        else acc
      else
        let acc := { acc with
          stats := { acc.stats with unavailable := acc.stats.unavailable + 1 } }
        if r.has_error && r.error_mismatch then
          { acc with stats := { acc.stats with country_mismatched := acc.stats.country_mismatched + 1 } }
        else acc

/-- The batch partition `proxies[i:i+batch_size]` of the batch loop. -/
def chunkList {α : Type} (n : Nat) : List α → List (List α)
  | [] => []
  | x :: xs =>
      if _h : n = 0 then [x :: xs]
      else (x :: xs).take n :: chunkList n ((x :: xs).drop n)
termination_by l => l.length
decreasing_by simp [List.length_drop]; omega

/-- The closing step of batch_check_async: when any proxy succeeded, the
average response time over the successes is written into the stats. -/
def finalizeStats (acc : BatchAcc) : BatchStats :=
  if acc.available_count > 0 then
    { acc.stats with avg_response_time := acc.total_response_time / acc.available_count }
  else acc.stats

/-- ProxyChecker.batch_check_async restricted to its statistics behaviour:
an empty input immediately yields the zero statistics (the source's early
dict carries only the total/available/unavailable keys); otherwise the
outcomes, one per proxy, are tallied batch by batch with
`batch_size = min(len(proxies), max(5, min(20, max_workers)))`, and a final
average response time is computed over the successes (`round` on the float
mean is modelled as natural division; no claim concerns it). -/
def batch_check_async (max_workers : Nat) (proxies : List (List (String × String)))
    (outcomes : List BatchOutcome) : BatchStats :=
  if proxies.isEmpty then ⟨0, 0, 0, 0, 0, 0⟩
  else
    finalizeStats
      ((chunkList (min proxies.length (max 5 (min 20 max_workers))) outcomes).foldl
        (fun a chunk => chunk.foldl tallyOutcome a)
        ⟨⟨proxies.length, 0, 0, 0, 0, 0⟩, 0, 0⟩)

/-- The batches concatenate back to the original outcome list. -/
theorem chunkList_flatten {α : Type} (n : Nat) (xs : List α) :
    (chunkList n xs).flatten = xs := by
  have H : ∀ (m : Nat) (ys : List α), ys.length ≤ m → (chunkList n ys).flatten = ys := by
    intro m
    induction m with
    | zero =>
        intro ys hle
        have hy : ys = [] := List.eq_nil_of_length_eq_zero (by omega)
        subst hy
        simp [chunkList]
    | succ m ih =>
        intro ys hle
        match ys with
        | [] => simp [chunkList]
        | y :: ys2 =>
            unfold chunkList
            by_cases hn : n = 0
            · simp [hn]
            · rw [dif_neg hn, List.flatten_cons,
                  ih ((y :: ys2).drop n)
                    (by simp only [List.length_drop, List.length_cons] at hle ⊢; omega)]
              exact List.take_append_drop n (y :: ys2)
  exact H xs.length xs le_rfl

/-- One tally step keeps `total` and adds exactly one to
`available + unavailable`. -/
theorem tallyOutcome_step (acc : BatchAcc) (o : BatchOutcome) :
    (tallyOutcome acc o).stats.total = acc.stats.total ∧
    (tallyOutcome acc o).stats.available + (tallyOutcome acc o).stats.unavailable
      = acc.stats.available + acc.stats.unavailable + 1 := by
  cases o with
  | exc m => exact ⟨rfl, by simp [tallyOutcome]; omega⟩
  | done s r =>
      cases s with
      | true =>
          by_cases h1 : r.has_response_time <;>
            by_cases h2 : r.has_country_match <;>
              by_cases h3 : r.country_match <;>
                simp [tallyOutcome, h1, h2, h3] <;> omega
      | false =>
          by_cases h4 : (r.has_error && r.error_mismatch) = true <;>
            simp [tallyOutcome, h4] <;> omega

/-- Folding the tally over any outcome list keeps `total` and adds the list
length to `available + unavailable`. -/
theorem tally_counts (os : List BatchOutcome) :
    ∀ acc : BatchAcc,
      (os.foldl tallyOutcome acc).stats.total = acc.stats.total ∧
      (os.foldl tallyOutcome acc).stats.available
        + (os.foldl tallyOutcome acc).stats.unavailable
        = acc.stats.available + acc.stats.unavailable + os.length := by
  induction os with
  | nil => intro acc; exact ⟨rfl, by simp⟩
  | cons o os ih =>
      intro acc
      simp only [List.foldl_cons, List.length_cons]
      obtain ⟨iht, ihc⟩ := ih (tallyOutcome acc o)
      obtain ⟨ht, hc⟩ := tallyOutcome_step acc o
      refine ⟨by rw [iht, ht], by rw [ihc, hc]; omega⟩

/-- The closing average computation keeps the `total` field. -/
theorem finalizeStats_total (acc : BatchAcc) : (finalizeStats acc).total = acc.stats.total := by
  unfold finalizeStats
  split <;> rfl

/-- The closing average computation keeps the `available` field. -/
theorem finalizeStats_available (acc : BatchAcc) :
    (finalizeStats acc).available = acc.stats.available := by
  unfold finalizeStats
  split <;> rfl

/-- The closing average computation keeps the `unavailable` field. -/
theorem finalizeStats_unavailable (acc : BatchAcc) :
    (finalizeStats acc).unavailable = acc.stats.unavailable := by
  unfold finalizeStats
  split <;> rfl

/-- C10: with one outcome per input proxy, batch_check_async counts each
proxy exactly once: `total` is the input length and
`available + unavailable = total`; per-item exceptions are tallied as
unavailable rather than aborting the batch. -/
theorem c10_batch_stats_conservation (mw : Nat)
    (proxies : List (List (String × String))) (outcomes : List BatchOutcome)
    (hlen : outcomes.length = proxies.length) :
    (batch_check_async mw proxies outcomes).total = proxies.length ∧
    (batch_check_async mw proxies outcomes).available
      + (batch_check_async mw proxies outcomes).unavailable
      = (batch_check_async mw proxies outcomes).total := by
  cases proxies with
  | nil =>
      have ho : outcomes = [] := List.eq_nil_of_length_eq_zero (by simpa using hlen)
      subst ho
      exact ⟨rfl, rfl⟩
  | cons p ps =>
      unfold batch_check_async
      rw [if_neg (by simp)]
      have hfold : (chunkList (min (p :: ps).length (max 5 (min 20 mw))) outcomes).foldl
          (fun a chunk => chunk.foldl tallyOutcome a)
          ⟨⟨(p :: ps).length, 0, 0, 0, 0, 0⟩, 0, 0⟩
          = outcomes.foldl tallyOutcome ⟨⟨(p :: ps).length, 0, 0, 0, 0, 0⟩, 0, 0⟩ := by
        rw [← List.foldl_flatten]
        rw [chunkList_flatten]
      rw [hfold]
      obtain ⟨ht, hc⟩ := tally_counts outcomes ⟨⟨(p :: ps).length, 0, 0, 0, 0, 0⟩, 0, 0⟩
      constructor
      · rw [finalizeStats_total, ht]
      · rw [finalizeStats_available, finalizeStats_unavailable, finalizeStats_total, hc, ht]
        simp [hlen]

/-- Closed instantiation of the C10 theorem: two proxies, one successful
check and one exception, count as total 2 with available + unavailable
= 2.  -/
theorem c10_batch_stats_witness :
    (batch_check_async 10 [[("host", "1.1.1.1")], [("host", "2.2.2.2")]]
        [BatchOutcome.done true ⟨true, 120, false, false, false, false⟩,
         BatchOutcome.exc "boom"]).total = 2 ∧
    (batch_check_async 10 [[("host", "1.1.1.1")], [("host", "2.2.2.2")]]
        [BatchOutcome.done true ⟨true, 120, false, false, false, false⟩,
         BatchOutcome.exc "boom"]).available
      + (batch_check_async 10 [[("host", "1.1.1.1")], [("host", "2.2.2.2")]]
          [BatchOutcome.done true ⟨true, 120, false, false, false, false⟩,
           BatchOutcome.exc "boom"]).unavailable
      = (batch_check_async 10 [[("host", "1.1.1.1")], [("host", "2.2.2.2")]]
          [BatchOutcome.done true ⟨true, 120, false, false, false, false⟩,
           BatchOutcome.exc "boom"]).total := by
  have h := c10_batch_stats_conservation 10
    [[("host", "1.1.1.1")], [("host", "2.2.2.2")]]
    [BatchOutcome.done true ⟨true, 120, false, false, false, false⟩,
     BatchOutcome.exc "boom"] (by decide)
  exact ⟨h.1, h.2⟩

end PMS
